import Mathlib

/-!
Verification of the tensor engine (`src/tensor.hpp`) against its
natural-language specification.

The development shallowly embeds the C++ code: machine `size_t` loop
counters become `Nat`, the element type `T` (instantiated at `int` in
`main.cpp`) becomes `Int`, the flat `std::vector<T>` buffer becomes a
`List Int`, and reads `v[i]` of a vector become `List.getD i 0` (reads
that the source's invariants keep in bounds never hit the default).
Functions that throw (`check_size_eq`) return `Except String`; the
tensor-by-tensor `matmul`, whose non-rank-2 branch falls off the end of
the function without returning a value, returns an `Option`.
-/

/-- Mirrors `struct NTensorConfig` (tensor.hpp lines 10-12). -/
structure NTensorConfig where
  strassen_threshold : Nat
deriving DecidableEq, Repr

/-- Mirrors the state of `class NTensor<T>` at `T = int`: `shape_`,
`stride_`, flat buffer `data_`, and `config_`.  The members `size_` and
`ndim_` are derived from `shape_` at construction and are recomputed
from `shape` here (`calcSize`, `List.length`). -/
structure NTensor where
  shape : List Nat
  stride : List Nat
  data : List Int
  config : NTensorConfig
deriving DecidableEq, Repr

/-- Mirrors the state of `class VTensor<T>`: a non-owning view.  The
`data_` pointer (parent buffer plus offset) is modelled as the parent
buffer `buf` together with the base offset `base`; `s0, s1` are the
two strides and `rows, cols` the two shape entries. -/
structure VTensor where
  buf : List Int
  base : Nat
  s0 : Nat
  s1 : Nat
  rows : Nat
  cols : Nat
deriving DecidableEq, Repr

namespace NTensor

/-- `calculate_size` (tensor.hpp lines 409-413): `size_` starts at 1 and
is multiplied by every extent in order. -/
def calcSize (shape : List Nat) : Nat :=
  shape.foldl (· * ·) 1

/-- `calculate_stride` (tensor.hpp lines 415-421): `stride_[ndim_-1] = 1`
and `stride_[i] = shape_[i+1] * stride_[i+1]` downwards.  For rank 0 the
source writes `stride_[ndim_ - 1]`, i.e. `stride_[SIZE_MAX]`, out of
bounds (undefined behavior); the model returns the empty list there. -/
def calcStride : List Nat → List Nat
  | [] => []
  | [_] => [1]
  | _ :: y :: t => (y * (calcStride (y :: t)).headD 1) :: calcStride (y :: t)

/-- The constructor `NTensor(shape, fill, cfg)` (tensor.hpp lines 54-68):
derives size and stride, then `data_.resize(size_, fill)` fills the
buffer with `fill`.  No validation of any kind is performed. -/
def construct (shape : List Nat) (fill : Int) (cfg : NTensorConfig) : NTensor :=
  { shape := shape
    stride := calcStride shape
    data := List.replicate (calcSize shape) fill
    config := cfg }

/-- The flat offset computed by `index` (tensor.hpp lines 90-96):
`flat_pos += p * stride_[i]` over the coordinates. -/
def flat_pos (pos stride : List Nat) : Nat :=
  (List.zipWith (· * ·) pos stride).sum

/-- `shape_[0]` of a rank-2 tensor (row extent). -/
def rowsOf (t : NTensor) : Nat := t.shape.getD 0 0

/-- `shape_[1]` of a rank-2 tensor (column extent). -/
def colsOf (t : NTensor) : Nat := t.shape.getD 1 0

/-- Literal pieces of the `check_size_eq` diagnostic stream
(tensor.hpp lines 425-437). -/
def errPre : String := "Cannot operate on tensors: shapes differ. LHS shape=["

/-- Separator between the two shape renderings in the diagnostic. -/
def errMid : String := "] RHS shape=["

/-- Closing bracket of the diagnostic. -/
def errSuf : String := "]"

/-- Comma separator used when streaming a shape. -/
def commaSep : String := ", "

/-- Renders a shape the way `check_size_eq` streams it: extents joined
by a comma and a space. -/
def fmtDims (s : List Nat) : String :=
  String.intercalate commaSep (s.map toString)

/-- The full `runtime_error` message thrown by `check_size_eq`. -/
def shapeErrMsg (a b : List Nat) : String :=
  errPre ++ fmtDims a ++ errMid ++ fmtDims b ++ errSuf

/-- The elementwise core of `NTensor::add(const NTensor&)`
(tensor.hpp lines 128-138): `out` is constructed with this tensor's
shape and config, then `out.data_[i] = data_[i] + t.data_[i]` for every
`i < size_`. -/
def addT (t u : NTensor) : NTensor :=
  { shape := t.shape
    stride := calcStride t.shape
    data := (List.range (calcSize t.shape)).map
      (fun i => t.data.getD i 0 + u.data.getD i 0)
    config := t.config }

/-- The elementwise core of `NTensor::sub(NTensor&)`
(tensor.hpp lines 151-161). -/
def subT (t u : NTensor) : NTensor :=
  { shape := t.shape
    stride := calcStride t.shape
    data := (List.range (calcSize t.shape)).map
      (fun i => t.data.getD i 0 - u.data.getD i 0)
    config := t.config }

/-- `NTensor::add(const NTensor&)` including the `check_size_eq` guard
(tensor.hpp lines 128-138 and 423-441): a thrown `runtime_error`
becomes `Except.error` carrying the message. -/
def add (t u : NTensor) : Except String NTensor :=
  if t.shape = u.shape then .ok (addT t u)
  else .error (shapeErrMsg t.shape u.shape)

/-- `NTensor::sub(NTensor&)` including the `check_size_eq` guard. -/
def sub (t u : NTensor) : Except String NTensor :=
  if t.shape = u.shape then .ok (subT t u)
  else .error (shapeErrMsg t.shape u.shape)

/-- `NTensor::min` (tensor.hpp lines 367-375): `out = data_[0]`, then for
`i` from 1 to `size_ - 1`, `out = data_[i] < out ? data_[i] : out`.
The buffer length equals `size_` for every constructed tensor, so the
loop traverses exactly the tail of the buffer. -/
def min (t : NTensor) : Int :=
  t.data.tail.foldl (fun out x => if x < out then x else out) (t.data.headD 0)

/-- `NTensor::max` (tensor.hpp lines 377-385), same loop with `>`. -/
def max (t : NTensor) : Int :=
  t.data.tail.foldl (fun out x => if x > out then x else out) (t.data.headD 0)

/-- `NTensor::flatten` (tensor.hpp lines 345-350).  As written the source
is ill-formed when instantiated: `NTensor<T> out({1, size_})` omits the
constructor's required `fill` and `config` arguments (no other
constructor matches), and `out.data_ = data_` is `std::vector` copy
assignment, a fresh allocation plus an elementwise copy rather than a
reuse of the existing buffer.  The model records the value-level
behavior the source aims at: a `1 x size` tensor holding the same
buffer contents in the same linear order. -/
def flatten (t : NTensor) : NTensor :=
  { shape := [1, calcSize t.shape]
    stride := calcStride [1, calcSize t.shape]
    data := t.data
    config := t.config }

/-- `VTensor::index(i, j)` (tensor.hpp lines 23-25):
`data_[i * stride_[0] + j * stride_[1]]`, where `data_` already points
`base` elements into the parent buffer. -/
def vindex (v : VTensor) (i j : Nat) : Int :=
  v.buf.getD (v.base + i * v.s0 + j * v.s1) 0

/-- `NTensor::slice(a, b, c, d)` (tensor.hpp lines 106-125): the view's
data pointer is `data_ + a*stride_[0] + c*stride_[1]`, its strides are
the parent's, its shape is `{b-a, d-c}`. -/
def slice (t : NTensor) (a b c d : Nat) : VTensor :=
  { buf := t.data
    base := a * t.stride.getD 0 0 + c * t.stride.getD 1 0
    s0 := t.stride.getD 0 0
    s1 := t.stride.getD 1 0
    rows := b - a
    cols := d - c }

/-- `NTensor::add(VTensor&, VTensor&)` (tensor.hpp lines 140-149): for
`i < shape_[0]` and `j < shape_[1]` of the target tensor, write
`a.index(i,j) + b.index(i,j)` at position `{i, j}`.  The targets used
by the Strassen kernel are freshly constructed scratch tensors, whose
stride is `[cols, 1]`, so position `{i, j}` is flat offset `i*cols + j`
and the loop overwrites the whole buffer. -/
def addV (t : NTensor) (a b : VTensor) : NTensor :=
  let r := rowsOf t
  let c := colsOf t
  let d := (List.range (r * c)).map
    (fun k => vindex a (k / c) (k % c) + vindex b (k / c) (k % c))
  { t with data := d }

/-- `NTensor::sub(VTensor&, VTensor&)` (tensor.hpp lines 163-170). -/
def subV (t : NTensor) (a b : VTensor) : NTensor :=
  let r := rowsOf t
  let c := colsOf t
  let d := (List.range (r * c)).map
    (fun k => vindex a (k / c) (k % c) - vindex b (k / c) (k % c))
  { t with data := d }

/-- `NTensor::eq(VTensor&)` (tensor.hpp lines 172-178): copy the view
into the target, element by element. -/
def eqV (t : NTensor) (v : VTensor) : NTensor :=
  let r := rowsOf t
  let c := colsOf t
  let d := (List.range (r * c)).map
    (fun k => vindex v (k / c) (k % c))
  { t with data := d }

/-- `NTensor::static_matmul` (tensor.hpp lines 202-227), the direct
kernel: `rows = shape_[1]`, `cols = t.shape_[0]`, output constructed as
`{rows, cols}` zero-filled, and
`out.data_[cols*row + col] = sum over i < shape_[0] of
data_[cols*row + i] * t.data_[i*cols + col]`.  Every output position
`k < rows*cols` is written exactly once, at `row = k / cols`,
`col = k % cols`. -/
def static_matmul (t u : NTensor) : NTensor :=
  let rows := t.shape.getD 1 0
  let cols := u.shape.getD 0 0
  { shape := [rows, cols]
    stride := calcStride [rows, cols]
    data := (List.range (rows * cols)).map (fun k =>
      ((List.range (t.shape.getD 0 0)).map (fun i =>
        t.data.getD (cols * (k / cols) + i) 0 *
          u.data.getD (i * cols + (k % cols)) 0)).sum)
    config := t.config }

/-- `NTensor::strassen_split` (tensor.hpp lines 328-343): quadrant views
`(a, b, c, d)` of a rank-2 tensor, splitting rows and columns at the
halves. -/
def strassen_split (t : NTensor) :
    VTensor × VTensor × VTensor × VTensor :=
  let rows := rowsOf t
  let columns := colsOf t
  let hr := rows / 2
  let hc := columns / 2
  (slice t 0 hr 0 hc, slice t 0 hr hc columns,
   slice t hr rows 0 hc, slice t hr rows hc columns)

/-- `NTensor::strassen_stack` (tensor.hpp lines 291-325): writes the
four quadrant tensors into one `(2R) x (2C)` row-major output, row by
row; position `k` of the output lies in quadrant `(k/(2C) < R ?, k%(2C)
< C ?)` and holds the corresponding quadrant element. -/
def strassen_stack (cfg : NTensorConfig)
    (c11 c12 c21 c22 : NTensor) : NTensor :=
  let R := rowsOf c11
  let C := colsOf c11
  { shape := [2 * R, 2 * C]
    stride := calcStride [2 * R, 2 * C]
    data := (List.range (2 * R * (2 * C))).map (fun k =>
      let i := k / (2 * C)
      let j := k % (2 * C)
      if i < R then
        if j < C then c11.data.getD (i * C + j) 0
        else c12.data.getD (i * C + (j - C)) 0
      else
        if j < C then c21.data.getD ((i - R) * C + j) 0
        else c22.data.getD ((i - R) * C + (j - C)) 0)
    config := cfg }

/-- Message for the fuel-exhaustion branch of the embedded Strassen
recursion; the fuel supplied by `strassen_matmul` always exceeds the
recursion depth, so this branch is unreachable at every input used in
the theorems below. -/
def fuelMsg : String := "fuel exhausted"

/-- `NTensor::strassen_matmul` (tensor.hpp lines 230-289), translated
line by line.  The explicit `fuel` argument is an artifact that makes
the recursion structural; it never alters the value at the inputs used.
Points worth noting, each visible in the source:
* base case (line 231): `A.shape_[0] <= 4 && B.shape_[1] <= 4`;
* both scratch tensors are sized from quadrant `a` of `A` (lines
  243-244), and `config_` is the originating tensor's configuration,
  which neither kernel ever reads again;
* for m1 the source calls `buf2.sub(e, h)` (line 248), so the second
  operand is `e - h`;
* for m2 the source refreshes `buf2` but passes `buf1` (line 254),
  which still holds `a + d` from the m1 step, as the first operand;
* the quadrant combination (lines 281-284) uses the throwing
  `add`/`sub` members, modelled in the `Except` monad. -/
def strassenFuel : Nat → NTensor → NTensor → Except String NTensor
  | 0, _, _ => .error fuelMsg
  | fuel + 1, A, B =>
    if rowsOf A ≤ 4 ∧ colsOf B ≤ 4 then .ok (static_matmul A B)
    else do
      let (a, b, c, d) := strassen_split A
      let (e, f, g, h) := strassen_split B
      let buf0 := construct [a.rows, a.cols] 0 A.config
      let buf1 := addV buf0 a d
      let buf2 := subV buf0 e h
      let m1 ← strassenFuel fuel buf1 buf2
      let buf2 := subV (eqV buf2 d) g e
      let m2 ← strassenFuel fuel buf1 buf2
      let buf1 := addV buf1 a b
      let buf2 := eqV buf2 h
      let m3 ← strassenFuel fuel buf1 buf2
      let buf1 := subV buf1 b d
      let buf2 := addV buf2 g h
      let m4 ← strassenFuel fuel buf1 buf2
      let buf1 := eqV buf1 a
      let buf2 := subV buf2 f h
      let m5 ← strassenFuel fuel buf1 buf2
      let buf1 := addV buf1 c d
      let buf2 := eqV buf2 e
      let m6 ← strassenFuel fuel buf1 buf2
      let buf1 := subV buf1 a c
      let buf2 := addV buf2 e f
      let m7 ← strassenFuel fuel buf1 buf2
      let c11 ← do
        let s1 ← add m1 m2
        let s2 ← sub s1 m3
        add s2 m4
      let c12 ← add m5 m3
      let c21 ← add m6 m2
      let c22 ← do
        let s1 ← add m5 m1
        let s2 ← sub s1 m6
        sub s2 m7
      .ok (strassen_stack A.config c11 c12 c21 c22)

/-- The Strassen kernel as called by `matmul`: the fuel strictly
dominates the measure `rows A + cols A + cols B`, which strictly
decreases across every recursive call of the source. -/
def strassen_matmul (A B : NTensor) : Except String NTensor :=
  strassenFuel (rowsOf A + colsOf A + colsOf B + 1) A B

/-- Which multiplication kernel a dispatch point selects. -/
inductive Kernel where
  | direct
  | strassen
deriving DecidableEq, Repr

/-- The branch taken by `NTensor::matmul(NTensor)` at line 190:
`size_ < config_.strassen_threshold` selects the direct kernel,
otherwise the Strassen kernel. -/
def matmulKernel (t : NTensor) : Kernel :=
  if calcSize t.shape < t.config.strassen_threshold then .direct
  else .strassen

/-- The branch taken at the head of `strassen_matmul` (line 231): the
direct kernel exactly when `A.shape_[0] <= 4 && B.shape_[1] <= 4`. -/
def strassenKernel (A B : NTensor) : Kernel :=
  if rowsOf A ≤ 4 ∧ colsOf B ≤ 4 then .direct else .strassen

/-- `NTensor::matmul(NTensor)` (tensor.hpp lines 188-200).  When
`ndim_ == 2` it returns the selected kernel's product; otherwise the
function body ends without a return statement (the comment at line 199
reads `implement for n_ > 2`), so no value is produced — modelled as
`none`.  No rank or shape validation is performed anywhere on either
path. -/
def matmul (t u : NTensor) : Option (Except String NTensor) :=
  if t.shape.length = 2 then
    some (match matmulKernel t with
      | .direct => .ok (static_matmul t u)
      | .strassen => strassen_matmul t u)
  else none

/-- Replaces the configured `strassen_threshold` of a tensor, leaving
everything else unchanged; used to state that a decision is independent
of the threshold. -/
def setThreshold (t : NTensor) (th : Nat) : NTensor :=
  { t with config := ⟨th⟩ }

/-- Modelled from the spec (claim C2's reading of §4.3): identical to
`strassenFuel` except at the two places where the source deviates from
its own inline comments — here m1's second operand is `e + h`
(`combine_add`) and m2's first operand is the refreshed scratch holding
quadrant `d` (`copy_from(d)`), exactly as the specification's product
list `m1 = strassen(a+d, e+h)`, `m2 = strassen(d, g-e)` prescribes. -/
def strassenSpecFuel : Nat → NTensor → NTensor → Except String NTensor
  | 0, _, _ => .error fuelMsg
  | fuel + 1, A, B =>
    if rowsOf A ≤ 4 ∧ colsOf B ≤ 4 then .ok (static_matmul A B)
    else do
      let (a, b, c, d) := strassen_split A
      let (e, f, g, h) := strassen_split B
      let buf0 := construct [a.rows, a.cols] 0 A.config
      let buf1 := addV buf0 a d
      let buf2 := addV buf0 e h
      let m1 ← strassenSpecFuel fuel buf1 buf2
      let buf1 := eqV buf1 d
      let buf2 := subV buf2 g e
      let m2 ← strassenSpecFuel fuel buf1 buf2
      let buf1 := addV buf1 a b
      let buf2 := eqV buf2 h
      let m3 ← strassenSpecFuel fuel buf1 buf2
      let buf1 := subV buf1 b d
      let buf2 := addV buf2 g h
      let m4 ← strassenSpecFuel fuel buf1 buf2
      let buf1 := eqV buf1 a
      let buf2 := subV buf2 f h
      let m5 ← strassenSpecFuel fuel buf1 buf2
      let buf1 := addV buf1 c d
      let buf2 := eqV buf2 e
      let m6 ← strassenSpecFuel fuel buf1 buf2
      let buf1 := subV buf1 a c
      let buf2 := addV buf2 e f
      let m7 ← strassenSpecFuel fuel buf1 buf2
      let c11 ← do
        let s1 ← add m1 m2
        let s2 ← sub s1 m3
        add s2 m4
      let c12 ← add m5 m3
      let c21 ← add m6 m2
      let c22 ← do
        let s1 ← add m5 m1
        let s2 ← sub s1 m6
        sub s2 m7
      .ok (strassen_stack A.config c11 c12 c21 c22)

/-- Top-level wrapper for the spec-side Strassen kernel, with the same
always-sufficient fuel as `strassen_matmul`. -/
def strassenSpec (A B : NTensor) : Except String NTensor :=
  strassenSpecFuel (rowsOf A + colsOf A + colsOf B + 1) A B

end NTensor

deriving instance DecidableEq for Except

open NTensor

/-- The default configuration named in the constructor's documentation
(tensor.hpp line 63): `strassen_threshold` 48. -/
def c48 : NTensorConfig := ⟨48⟩

/-- The spec's worked matmul example, left operand: A = [[1,2],[3,4]]. -/
def A2 : NTensor :=
  { shape := [2, 2], stride := calcStride [2, 2], data := [1, 2, 3, 4], config := c48 }

/-- The spec's worked matmul example, right operand: B = [[5,6],[7,8]]. -/
def B2 : NTensor :=
  { shape := [2, 2], stride := calcStride [2, 2], data := [5, 6, 7, 8], config := c48 }

/-- The spec's expected product [[19,22],[43,50]]. -/
def P2 : NTensor :=
  { shape := [2, 2], stride := calcStride [2, 2], data := [19, 22, 43, 50], config := c48 }

/-- Buffer of an 8x8 matrix whose only nonzero entry is a 1 at (0,0),
which lies in quadrant `a`. -/
def a8data : List Int := (List.range 64).map (fun k => if k = 0 then (1 : Int) else 0)

/-- Buffer of an 8x8 matrix whose only nonzero entry is a 1 at (4,4),
which lies in quadrant `h`. -/
def b8data : List Int := (List.range 64).map (fun k => if k = 36 then (1 : Int) else 0)

/-- 8x8 left operand separating the two kernels: its true product with
`B8` is the zero matrix. -/
def A8 : NTensor :=
  { shape := [8, 8], stride := calcStride [8, 8], data := a8data, config := c48 }

/-- 8x8 right operand separating the two kernels. -/
def B8 : NTensor :=
  { shape := [8, 8], stride := calcStride [8, 8], data := b8data, config := c48 }

/-- A rank-2 tensor whose element count (4) equals its configured
`strassen_threshold` (4). -/
def t4 : NTensor := construct [2, 2] 1 ⟨4⟩

/-- 2x32 tensor: row extent 2 is at most 4, element count 64 is at
least the default threshold 48. -/
def Acx : NTensor := construct [2, 32] 1 c48

/-- 32x8 conforming right operand: column extent 8 exceeds 4. -/
def Bcx : NTensor := construct [32, 8] 1 c48

/-- Rank-1 tensor for the missing-rank-check evaluation. -/
def T1d : NTensor := construct [3] 1 c48

/-- 4x2 all-ones tensor; its column count (2) differs from `B14`'s row
count (1), the spec's `ShapeMismatch` situation. -/
def A42 : NTensor := construct [4, 2] 1 c48

/-- 1x4 all-twos tensor, mismatched right operand for `A42`. -/
def B14 : NTensor := construct [1, 4] 2 c48

/-- The product the engine actually returns for `A42 x B14`. -/
def M42 : NTensor :=
  { shape := [2, 1], stride := [1, 1], data := [8, 8], config := c48 }

/-- 2x3 tensor with six distinct entries, for the flatten evaluation. -/
def T23 : NTensor :=
  { shape := [2, 3], stride := calcStride [2, 3], data := [1, 2, 3, 4, 5, 6], config := c48 }

/-- Concrete tensor with distinct entries for the min/max witness. -/
def TW : NTensor :=
  { shape := [4], stride := [1], data := [3, -1, 2, 7], config := c48 }

/-- Equal-shape pair member for the add/sub witness, all ones. -/
def W6a : NTensor := construct [2, 2] 1 c48

/-- Equal-shape pair member for the add/sub witness, all twos. -/
def W6b : NTensor := construct [2, 2] 2 c48

/-- Rank-1 length-2 tensor for the mismatching add/sub witness pair. -/
def W6c : NTensor := construct [2] 1 c48

/-- Rank-1 length-3 tensor for the mismatching add/sub witness pair. -/
def W6d : NTensor := construct [3] 1 c48

/-- C1: the spec's 2x2 cross-check instance does hold — both kernels
return [[19,22],[43,50]] — but the kernels are not equivalent on all
conforming power-of-two squares: at the 8x8 pair `A8, B8` (true
product: the zero matrix, which the direct kernel returns) the Strassen
kernel returns a different matrix, because of the two slips at
tensor.hpp lines 248 and 254. -/
theorem C1_cross_check_eval :
    static_matmul A2 B2 = P2 ∧
    strassen_matmul A2 B2 = .ok P2 ∧
    strassen_matmul A8 B8 ≠ .ok (static_matmul A8 B8) := by
  refine ⟨by decide, by decide, by decide⟩

set_option maxHeartbeats 2000000 in
/-- C2: the seven-product schedule the claim states (m1 over `e+h`, m2
with left operand `d`) is exactly `strassenSpec`; run on `A8, B8` it
agrees with the direct kernel, while the source's schedule — which uses
`e-h` for m1 (line 248: `buf2.sub(e, h)`) and passes the scratch still
holding `a+d` as m2's left operand (line 254) — produces a different
result.  The remaining five products and the combination formulas of
the claim match the source. -/
theorem C2_product_schedule_eval :
    strassenSpec A8 B8 = .ok (static_matmul A8 B8) ∧
    strassen_matmul A8 B8 ≠ strassenSpec A8 B8 := by
  refine ⟨by decide, by decide⟩

/-- C3 counterexample: `t4` is rank 2 and its element count equals its
configured `strassen_threshold`, yet the dispatch at tensor.hpp line
190 (`size_ < threshold`) does not select the direct kernel, contrary
to the claim. -/
theorem C3_at_threshold_counterexample :
    t4.shape.length = 2 ∧
    calcSize t4.shape = t4.config.strassen_threshold ∧
    matmulKernel t4 ≠ Kernel.direct := by
  refine ⟨by decide, by decide, by decide⟩

/-- C3 (amended): for a rank-2 matmul call the direct kernel is chosen
exactly when the element count is strictly below `strassen_threshold`;
at the threshold, and at threshold + 1, the Strassen kernel is
chosen. -/
theorem C3_threshold_dispatch (t : NTensor) (_hrank : t.shape.length = 2) :
    (matmulKernel t = Kernel.direct ↔
      calcSize t.shape < t.config.strassen_threshold) ∧
    (calcSize t.shape = t.config.strassen_threshold →
      matmulKernel t = Kernel.strassen) ∧
    (calcSize t.shape = t.config.strassen_threshold + 1 →
      matmulKernel t = Kernel.strassen) := by
  by_cases h : calcSize t.shape < t.config.strassen_threshold
  · simp [matmulKernel, h]
    omega
  · simp [matmulKernel, h]

/-- C3 witness: at `t4` (element count 4, threshold 4) the amended
claim reports the Strassen kernel. -/
theorem C3_threshold_dispatch_witness : matmulKernel t4 = Kernel.strassen :=
  (C3_threshold_dispatch t4 (by decide)).2.1 (by decide)

/-- C4 counterexample: the engine call `Acx.matmul(Bcx)` (2x32 times
32x8, element count 64 at default threshold 48) reaches
`strassen_matmul`, the left operand's row extent is at most 4, yet the
base-case test at tensor.hpp line 231 — a conjunction, `A.shape_[0] <=
4 && B.shape_[1] <= 4` — does not select the direct kernel, contrary to
the claim's disjunctive reading. -/
theorem C4_base_case_counterexample :
    (rowsOf Acx ≤ 4 ∨ colsOf Bcx ≤ 4) ∧
    matmulKernel Acx = Kernel.strassen ∧
    strassenKernel Acx Bcx ≠ Kernel.direct := by
  refine ⟨Or.inl (by decide), by decide, by decide⟩

/-- C4 (amended): a Strassen step uses the direct kernel exactly when
the left operand's row extent and the right operand's column extent are
both at most 4; the decision never consults `strassen_threshold`, so
the base-case rule does take precedence over the threshold rule. -/
theorem C4_base_case_rule (A B : NTensor) :
    (strassenKernel A B = Kernel.direct ↔ rowsOf A ≤ 4 ∧ colsOf B ≤ 4) ∧
    (∀ th : Nat,
      strassenKernel (setThreshold A th) (setThreshold B th) =
        strassenKernel A B) := by
  constructor
  · by_cases h : rowsOf A ≤ 4 ∧ colsOf B ≤ 4 <;> simp [strassenKernel, h]
  · intro th
    rfl

/-- C5: `matmul` performs no validation.  Called on a rank-1 tensor it
returns no value at all (the source falls off the end of the function)
rather than failing with `UnsupportedRank`; called on `A42, B14`, whose
inner dimensions 2 and 1 differ, it happily returns the numeric product
`M42` rather than failing with `ShapeMismatch`. -/
theorem C5_matmul_no_validation :
    matmul T1d T1d = none ∧
    colsOf A42 ≠ rowsOf B14 ∧
    matmul A42 B14 = some (.ok M42) := by
  refine ⟨by decide, by decide, by decide⟩

/-- C7: construction never fails.  A zero-extent shape passes the
constructor with an empty buffer instead of raising `InvalidShape`
(there is no validation anywhere in tensor.hpp lines 54-68); the second
half of the claim, every element equal to `fill` for positive shapes,
is what `data_.resize(size_, fill)` does. -/
theorem C7_construct_no_validation :
    (construct [2, 0, 3] 7 c48).data = [] ∧
    (∀ x ∈ (construct [2, 3] 5 c48).data, x = 5) := by
  refine ⟨by decide, by decide⟩

/-- C9: the value-level half of the flatten claim at a concrete 2x3
tensor — result shape 1 x Size with the buffer contents in the original
linear order.  The buffer-reuse half is refuted by the source text
itself: `out.data_ = data_` is a `std::vector` deep copy and
`NTensor<T> out({1, size_})` lacks the constructor's mandatory `fill`
and `config` arguments. -/
theorem C9_flatten_eval :
    (flatten T23).shape = [1, 6] ∧ (flatten T23).data = T23.data := by
  refine ⟨by decide, by decide⟩

theorem getD_map_range (f : Nat → Int) (n i : Nat) (d : Int) (h : i < n) :
    ((List.range n).map f).getD i d = f i := by
  simp [List.getD_eq_getElem?_getD, List.getElem?_map, List.getElem?_range, h]

theorem calcStride_cons (x : Nat) (xs : List Nat) :
    calcStride (x :: xs) = xs.prod :: calcStride xs := by
  induction xs generalizing x with
  | nil => rfl
  | cons y t ih =>
    simp only [calcStride]
    rw [ih y]
    simp

theorem calcStride_getD (s : List Nat) : ∀ i, i < s.length → (calcStride s).getD i 0 = (s.drop (i + 1)).prod := by
  induction s with
  | nil => intro i h; simp at h
  | cons x xs ih =>
    intro i h
    rw [calcStride_cons]
    cases i with
    | zero => simp
    | succ j =>
      rw [List.getD_cons_succ]
      rw [ih j (by simpa using h)]
      simp [List.drop_succ_cons]

theorem calcStride_getLast : ∀ s : List Nat, s ≠ [] → (calcStride s).getLast? = some 1
  | [_], _ => rfl
  | x :: y :: t, _ => by
    rw [calcStride_cons, calcStride_cons, List.getLast?_cons_cons, ← calcStride_cons y t]
    exact calcStride_getLast (y :: t) (by simp)

theorem calcSize_eq_prod (s : List Nat) : calcSize s = s.prod := by
  simp [calcSize, List.prod_eq_foldl]

theorem flat_pos_lt (pos shape : List Nat) (h : List.Forall₂ (· < ·) pos shape) :
    flat_pos pos (calcStride shape) < shape.prod := by
  induction h with
  | nil => simp [flat_pos]
  | @cons p x ps xs hpx htl ih =>
    rw [calcStride_cons]
    simp only [flat_pos, List.zipWith_cons_cons, List.sum_cons]
    simp only [flat_pos] at ih
    rw [List.prod_cons]
    calc p * xs.prod + (List.zipWith (· * ·) ps (calcStride xs)).sum
        < p * xs.prod + xs.prod := by omega
      _ = (p + 1) * xs.prod := by ring
      _ ≤ x * xs.prod := Nat.mul_le_mul (by omega) le_rfl

/-- C8: for every tensor constructed from a nonempty shape of positive
extents, the stride sequence ends in 1 and satisfies the row-major
recurrence, and the flat offset of every in-bounds coordinate tuple is
below the element count. -/
theorem C8_stride_invariant (shape : List Nat) (fill : Int) (cfg : NTensorConfig)
    (h1 : shape ≠ []) (_h2 : ∀ x ∈ shape, 0 < x) :
    (construct shape fill cfg).stride.getLast? = some 1 ∧
    (∀ i, i + 1 < shape.length →
      (construct shape fill cfg).stride.getD i 0 =
        shape.getD (i + 1) 0 * (construct shape fill cfg).stride.getD (i + 1) 0) ∧
    (∀ pos, List.Forall₂ (· < ·) pos shape →
      flat_pos pos (construct shape fill cfg).stride < calcSize shape) := by
  refine ⟨calcStride_getLast shape h1, ?_, ?_⟩
  · intro i hi
    show (calcStride shape).getD i 0 = shape.getD (i + 1) 0 * (calcStride shape).getD (i + 1) 0
    rw [calcStride_getD shape i (by omega), calcStride_getD shape (i + 1) hi]
    rw [List.getD_eq_getElem _ _ hi]
    rw [List.drop_eq_getElem_cons hi]
    rw [List.prod_cons]
  · intro pos hp
    show flat_pos pos (calcStride shape) < calcSize shape
    rw [calcSize_eq_prod]
    exact flat_pos_lt pos shape hp

/-- C8 witness: shape [2,3,4] with coordinate [1,2,3] — the stride ends
in 1 and the flat offset 23 is below the size 24. -/
theorem C8_stride_invariant_witness :
    (construct [2, 3, 4] 0 c48).stride.getLast? = some 1 ∧
    flat_pos [1, 2, 3] (construct [2, 3, 4] 0 c48).stride < calcSize [2, 3, 4] := by
  have h := C8_stride_invariant [2, 3, 4] 0 c48 (by decide) (by decide)
  exact ⟨h.1, h.2.2 [1, 2, 3] (by simp)⟩

/-- C6: on differing shapes `add` and `sub` throw the `ShapeMismatch`
diagnostic, whose text carries both operands' shapes, and return no
result; on identical shapes both succeed, and every element of the
result is the elementwise sum respectively difference.  The operands
are untouched: `add`/`sub` write only into the freshly constructed
output tensor. -/
theorem C6_add_sub_guard (t u : NTensor) :
    (t.shape ≠ u.shape →
      NTensor.add t u = .error (shapeErrMsg t.shape u.shape) ∧
      NTensor.sub t u = .error (shapeErrMsg t.shape u.shape) ∧
      shapeErrMsg t.shape u.shape =
        errPre ++ fmtDims t.shape ++ errMid ++ fmtDims u.shape ++ errSuf) ∧
    (t.shape = u.shape →
      NTensor.add t u = .ok (addT t u) ∧
      NTensor.sub t u = .ok (subT t u) ∧
      ∀ i, i < calcSize t.shape →
        (addT t u).data.getD i 0 = t.data.getD i 0 + u.data.getD i 0 ∧
        (subT t u).data.getD i 0 = t.data.getD i 0 - u.data.getD i 0) := by
  constructor
  · intro h
    refine ⟨?_, ?_, rfl⟩
    · simp [NTensor.add, h]
    · simp [NTensor.sub, h]
  · intro h
    refine ⟨by simp [NTensor.add, h], by simp [NTensor.sub, h], ?_⟩
    intro i hi
    constructor
    · exact getD_map_range _ _ _ _ hi
    · exact getD_map_range _ _ _ _ hi

/-- C6 witness: the rank-1 pair of shapes [2] and [3] is rejected with
the diagnostic carrying both shapes, and the 2x2 all-ones plus all-twos
pair succeeds with elementwise sum 3 at position 0. -/
theorem C6_add_sub_guard_witness :
    NTensor.add W6c W6d = .error (shapeErrMsg [2] [3]) ∧
    NTensor.add W6a W6b = .ok (addT W6a W6b) ∧
    (addT W6a W6b).data.getD 0 0 = W6a.data.getD 0 0 + W6b.data.getD 0 0 := by
  refine ⟨((C6_add_sub_guard W6c W6d).1 (by decide)).1, ?_, ?_⟩
  · exact ((C6_add_sub_guard W6a W6b).2 (by decide)).1
  · exact (((C6_add_sub_guard W6a W6b).2 (by decide)).2.2 0 (by decide)).1

theorem foldl_min_le (l : List Int) : ∀ a : Int,
    (l.foldl (fun out x => if x < out then x else out) a = a ∨
      l.foldl (fun out x => if x < out then x else out) a ∈ l) ∧
    l.foldl (fun out x => if x < out then x else out) a ≤ a ∧
    ∀ x ∈ l, l.foldl (fun out x => if x < out then x else out) a ≤ x := by
  induction l with
  | nil => intro a; simp
  | cons y ys ih =>
    intro a
    simp only [List.foldl_cons]
    obtain ⟨hmem, hle, hall⟩ := ih (if y < a then y else a)
    have hb : (if y < a then y else a) ≤ a := by split <;> omega
    have hby : (if y < a then y else a) ≤ y := by split <;> omega
    refine ⟨?_, le_trans hle hb, ?_⟩
    · rcases hmem with heq | hm
      · rw [heq]
        by_cases hy : y < a
        · rw [if_pos hy]; exact Or.inr (List.mem_cons_self y ys)
        · rw [if_neg hy]; exact Or.inl rfl
      · exact Or.inr (List.mem_cons_of_mem y hm)
    · intro x hx
      rcases List.mem_cons.mp hx with rfl | hx2
      · exact le_trans hle hby
      · exact hall x hx2

theorem foldl_max_ge (l : List Int) : ∀ a : Int,
    (l.foldl (fun out x => if x > out then x else out) a = a ∨
      l.foldl (fun out x => if x > out then x else out) a ∈ l) ∧
    a ≤ l.foldl (fun out x => if x > out then x else out) a ∧
    ∀ x ∈ l, x ≤ l.foldl (fun out x => if x > out then x else out) a := by
  induction l with
  | nil => intro a; simp
  | cons y ys ih =>
    intro a
    simp only [List.foldl_cons]
    obtain ⟨hmem, hle, hall⟩ := ih (if y > a then y else a)
    have hb : a ≤ (if y > a then y else a) := by split <;> omega
    have hby : y ≤ (if y > a then y else a) := by split <;> omega
    refine ⟨?_, le_trans hb hle, ?_⟩
    · rcases hmem with heq | hm
      · rw [heq]
        by_cases hy : y > a
        · rw [if_pos hy]; exact Or.inr (List.mem_cons_self y ys)
        · rw [if_neg hy]; exact Or.inl rfl
      · exact Or.inr (List.mem_cons_of_mem y hm)
    · intro x hx
      rcases List.mem_cons.mp hx with rfl | hx2
      · exact le_trans hby hle
      · exact hall x hx2

/-- C10: on a tensor with at least one element, `min` returns a value
occurring in the buffer that bounds every element from below, and `max`
one that bounds every element from above; the fold visits exactly the
buffer positions 0 to size-1, so under this precondition neither
operation reads outside the buffer nor fails. -/
theorem C10_min_max (t : NTensor) (h : t.data ≠ []) :
    (NTensor.min t ∈ t.data ∧ ∀ x ∈ t.data, NTensor.min t ≤ x) ∧
    (NTensor.max t ∈ t.data ∧ ∀ x ∈ t.data, x ≤ NTensor.max t) := by
  obtain ⟨d, ds, hd⟩ := List.exists_cons_of_ne_nil h
  have hmin : NTensor.min t = ds.foldl (fun out x => if x < out then x else out) d := by
    simp only [NTensor.min, hd, List.tail_cons, List.headD_cons]
  have hmax : NTensor.max t = ds.foldl (fun out x => if x > out then x else out) d := by
    simp only [NTensor.max, hd, List.tail_cons, List.headD_cons]
  rw [hmin, hmax, hd]
  obtain ⟨ha1, ha2, ha3⟩ := foldl_min_le ds d
  obtain ⟨hb1, hb2, hb3⟩ := foldl_max_ge ds d
  refine ⟨⟨?_, ?_⟩, ?_, ?_⟩
  · rcases ha1 with he | hm
    · rw [he]; exact List.mem_cons_self d ds
    · exact List.mem_cons_of_mem d hm
  · intro x hx
    rcases List.mem_cons.mp hx with rfl | hx2
    · exact ha2
    · exact ha3 x hx2
  · rcases hb1 with he | hm
    · rw [he]; exact List.mem_cons_self d ds
    · exact List.mem_cons_of_mem d hm
  · intro x hx
    rcases List.mem_cons.mp hx with rfl | hx2
    · exact hb2
    · exact hb3 x hx2

/-- C10 witness: on the buffer [3,-1,2,7] both reductions return buffer
members (-1 and 7). -/
theorem C10_min_max_witness :
    NTensor.min TW ∈ TW.data ∧ NTensor.max TW ∈ TW.data :=
  ⟨(C10_min_max TW (by decide)).1.1, (C10_min_max TW (by decide)).2.1⟩
